import Mathlib

/-!
Verification development for the yojimbo message subsystem
(yojimbo_message.h): the reference-counted Message, the BlockMessage
extension carrying an out-of-band buffer, and the MessageFactory that
creates and destroys messages by type index.

Modelling conventions:
* C++ pointers are modelled as natural numbers, with 0 standing for NULL.
* Machine ints are modelled as Int; the 15-bit and 16-bit unsigned
  bitfields of Message are modelled with explicit reduction mod 2^15
  and 2^16 on assignment, exactly where the C++ bitfield truncates.
* An assert is a fatal contract check: an operation guarded by asserts
  returns an Option, with none meaning the assertion fired. Where a
  claim depends on release-build behaviour (asserts compiled out), the
  operation takes an assertsOn flag and the guard is skipped when it is
  false, matching the explicit null-check fallback in the source.
* Destruction and freeing are modelled by returning the list of
  (allocator pointer, data pointer) pairs freed by the operation, so
  that "frees exactly once" is a statement about that list.
-/

/-- State of a yojimbo Message object: reference count, 16-bit id,
15-bit type, 1-bit block flag (bitfields modelled by reduction on
assignment). -/
structure Message where
  m_refCount : Int
  m_id : Int
  m_type : Int
  m_blockMessage : Int
deriving DecidableEq, Repr

/-- Message constructor: Message( int blockMessage = 0 ) initialises
m_refCount to 1, m_id to 0, m_type to 0, and the 1-bit m_blockMessage
bitfield to blockMessage truncated to one bit. -/
def Message.init (blockMessage : Int) : Message :=
  { m_refCount := 1, m_id := 0, m_type := 0, m_blockMessage := blockMessage % 2 }

/-- Message::GetRefCount. -/
def Message.GetRefCount (m : Message) : Int := m.m_refCount

/-- Message::GetType. -/
def Message.GetType (m : Message) : Int := m.m_type

/-- Message::GetId. -/
def Message.GetId (m : Message) : Int := m.m_id

/-- Message::IsBlockMessage: the 1-bit field converted to bool. -/
def Message.IsBlockMessage (m : Message) : Bool := m.m_blockMessage ≠ 0

/-- Message::SetId( uint16_t id ): the 16-bit bitfield stores id mod 2^16. -/
def Message.SetId (m : Message) (id : Int) : Message :=
  { m with m_id := id % 65536 }

/-- Message::SetType( int type ): the 15-bit bitfield stores type mod 2^15. -/
def Message.SetType (m : Message) (type : Int) : Message :=
  { m with m_type := type % 32768 }

/-- Message::AddRef: m_refCount++. -/
def Message.AddRef (m : Message) : Message :=
  { m with m_refCount := m.m_refCount + 1 }

/-- The unguarded decrement m_refCount-- performed by Message::Release. -/
def Message.ReleaseRaw (m : Message) : Message :=
  { m with m_refCount := m.m_refCount - 1 }

/-- Message::Release: assert( m_refCount > 0 ); m_refCount--.
Returns none when the assertion fires. -/
def Message.Release (m : Message) : Option Message :=
  if 0 < m.m_refCount then some m.ReleaseRaw else none

/-- State of a yojimbo BlockMessage: the underlying Message plus the
allocator pointer, block data pointer and block size (pointers are
naturals, 0 = NULL). -/
structure BlockMessage where
  msg : Message
  m_allocator : Nat
  m_blockData : Nat
  m_blockSize : Int
deriving DecidableEq, Repr

/-- BlockMessage constructor: Message( 1 ), m_allocator = NULL,
m_blockData = NULL, m_blockSize = 0. -/
def BlockMessage.init : BlockMessage :=
  { msg := Message.init 1, m_allocator := 0, m_blockData := 0, m_blockSize := 0 }

/-- A free event: the (allocator pointer, data pointer) pair passed to
YOJIMBO_FREE. -/
abbrev FreeEvent : Type := Nat × Nat

/-- BlockMessage::AttachBlock: asserts blockData non-null, blockSize
positive, and no block currently attached, then records the triple.
Returns the new state together with the (empty) list of frees it
performs; none when an assertion fires. -/
def BlockMessage.AttachBlock (b : BlockMessage) (allocator : Nat)
    (blockData : Nat) (blockSize : Int) :
    Option (BlockMessage × List FreeEvent) :=
  if blockData ≠ 0 ∧ 0 < blockSize ∧ b.m_blockData = 0 then
    some ({ b with m_allocator := allocator, m_blockData := blockData,
                   m_blockSize := blockSize }, [])
  else none

/-- BlockMessage::DetachBlock: unconditionally resets the triple to the
unattached state; frees nothing. -/
def BlockMessage.DetachBlock (b : BlockMessage) :
    BlockMessage × List FreeEvent :=
  ({ b with m_allocator := 0, m_blockData := 0, m_blockSize := 0 }, [])

/-- BlockMessage::GetAllocator (pointer, 0 = NULL). -/
def BlockMessage.GetAllocator (b : BlockMessage) : Nat := b.m_allocator

/-- BlockMessage::GetBlockData (pointer, 0 = NULL). -/
def BlockMessage.GetBlockData (b : BlockMessage) : Nat := b.m_blockData

/-- BlockMessage::GetBlockSize. -/
def BlockMessage.GetBlockSize (b : BlockMessage) : Int := b.m_blockSize

/-- Modelled from the spec: the YOJIMBO_FREE macro (yojimbo_allocator.h
is outside this subsystem) frees a non-null pointer through the given
allocator and nulls the pointer variable; per the spec, destruction
frees the attached block through the recorded allocator and then
resets the triple. This is the body of the BlockMessage destructor
combined with that macro: if m_allocator is non-null, YOJIMBO_FREE
frees m_blockData through it (only if non-null) and nulls m_blockData,
then m_blockSize = 0 and m_allocator = NULL; otherwise a no-op.
Returns the resulting field state and the list of frees performed. -/
def BlockMessage.destruct (b : BlockMessage) :
    BlockMessage × List FreeEvent :=
  if b.m_allocator ≠ 0 then
    ({ b with m_blockData := 0, m_blockSize := 0, m_allocator := 0 },
     if b.m_blockData ≠ 0 then [(b.m_allocator, b.m_blockData)] else [])
  else (b, [])

/-- BlockMessage::Serialize is a template over the stream type: it
ignores the stream and returns true, leaving the stream unchanged. -/
def BlockMessage.Serialize {Stream : Type} (b : BlockMessage)
    (stream : Stream) : Bool × Stream :=
  (true, stream)

/-- Read stream state. Modelled from the spec: the ReadStream external
collaborator (yojimbo_stream.h is outside this subsystem); only its
bit-position state is relevant to whether serialization changes it. -/
structure ReadStream where
  bitsProcessed : Nat
deriving DecidableEq, Repr

/-- Write stream state. Modelled from the spec: the WriteStream external
collaborator; only its bit-position state is relevant here. -/
structure WriteStream where
  bitsProcessed : Nat
deriving DecidableEq, Repr

/-- Measure stream state. Modelled from the spec: the MeasureStream
external collaborator; only its bit-position state is relevant here. -/
structure MeasureStream where
  bitsProcessed : Nat
deriving DecidableEq, Repr

/-- The SerializeInternal(ReadStream) override generated by
YOJIMBO_VIRTUAL_SERIALIZE_FUNCTIONS, which redirects to the template
Serialize. -/
def BlockMessage.SerializeInternalRead (b : BlockMessage)
    (stream : ReadStream) : Bool × ReadStream :=
  b.Serialize stream

/-- The SerializeInternal(WriteStream) override generated by
YOJIMBO_VIRTUAL_SERIALIZE_FUNCTIONS. -/
def BlockMessage.SerializeInternalWrite (b : BlockMessage)
    (stream : WriteStream) : Bool × WriteStream :=
  b.Serialize stream

/-- The SerializeInternal(MeasureStream) override generated by
YOJIMBO_VIRTUAL_SERIALIZE_FUNCTIONS. -/
def BlockMessage.SerializeInternalMeasure (b : BlockMessage)
    (stream : MeasureStream) : Bool × MeasureStream :=
  b.Serialize stream

/-- MessageFactoryError enum. -/
inductive MessageFactoryError where
  | NONE
  | FAILED_TO_ALLOCATE_MESSAGE
deriving DecidableEq, Repr

/-- State of a MessageFactory: allocator pointer, number of types, and
the sticky error level. The debug-only leak-audit map is elided. -/
structure MessageFactory where
  m_allocator : Nat
  m_numTypes : Int
  m_error : MessageFactoryError
deriving DecidableEq, Repr

/-- MessageFactory constructor. -/
def MessageFactory.init (allocator : Nat) (numTypes : Int) : MessageFactory :=
  { m_allocator := allocator, m_numTypes := numTypes,
    m_error := MessageFactoryError.NONE }

/-- MessageFactory::GetError. -/
def MessageFactory.GetError (f : MessageFactory) : MessageFactoryError :=
  f.m_error

/-- MessageFactory::ClearError. -/
def MessageFactory.ClearError (f : MessageFactory) : MessageFactory :=
  { f with m_error := MessageFactoryError.NONE }

/-- MessageFactory::GetNumTypes. -/
def MessageFactory.GetNumTypes (f : MessageFactory) : Int := f.m_numTypes

/-- Result of a CreateInternal dispatch: the message produced (none for
NULL) and whether an allocation was attempted (YOJIMBO_NEW reached). -/
structure CreateInternalResult where
  message : Option Message
  allocAttempted : Bool
deriving DecidableEq, Repr

/-- The base MessageFactory::CreateInternal: returns NULL for every
type, attempting no allocation. -/
def MessageFactory.CreateInternal (type : Int) : CreateInternalResult :=
  { message := none, allocAttempted := false }

/-- The CreateInternal generated by YOJIMBO_MESSAGE_FACTORY_START /
YOJIMBO_DECLARE_MESSAGE_TYPE / YOJIMBO_MESSAGE_FACTORY_FINISH over the
base MessageFactory. decls lists the declared (message type, block
flag of the declared class constructor) cases of the switch; allocOk
says whether YOJIMBO_NEW succeeds for a given type. First the base
CreateInternal is consulted (always NULL); then the switch: a declared
case allocates a fresh message (refcount 1, type 0) and sets its type
via SetMessageType, or returns NULL if allocation fails; the default
case returns NULL without allocating. -/
def genCreateInternal (decls : List (Int × Int)) (allocOk : Int → Bool)
    (type : Int) : CreateInternalResult :=
  match (MessageFactory.CreateInternal type).message with
  | some m => { message := some m, allocAttempted := false }
  | none =>
    match decls.find? (fun d => decide (d.1 = type)) with
    | some td =>
      if allocOk type then
        { message := some ((Message.init td.2).SetType td.1),
          allocAttempted := true }
      else
        { message := none, allocAttempted := true }
    | none => { message := none, allocAttempted := false }

/-- MessageFactory::Create, parameterised by the virtual CreateInternal
dispatch ci. Asserts the type is in [0, numTypes) (none when violated);
on a NULL dispatch result sets the sticky error and returns NULL,
otherwise returns the message with the factory unchanged. -/
def MessageFactory.CreateWith (f : MessageFactory)
    (ci : Int → CreateInternalResult) (type : Int) :
    Option (MessageFactory × Option Message) :=
  if 0 ≤ type ∧ type < f.m_numTypes then
    match (ci type).message with
    | none =>
      some ({ f with m_error := MessageFactoryError.FAILED_TO_ALLOCATE_MESSAGE },
            none)
    | some m => some (f, some m)
  else none

/-- Outcome of MessageFactory::Release on a handle. -/
inductive ReleaseOutcome where
  | noopNull
  | alive (m : Message)
  | destroyed (final : Message)
deriving DecidableEq, Repr

/-- MessageFactory::AddRef( Message * message ): assert( message ); if
( !message ) return; message->AddRef(). The assertsOn flag selects
whether the assert is compiled in; with it on, a null handle is a
fatal assertion (none). Returns the updated handle otherwise. -/
def MessageFactory.AddRefHandle (assertsOn : Bool) (msg : Option Message) :
    Option (Option Message) :=
  match msg with
  | none => if assertsOn then none else some none
  | some m => some (some m.AddRef)

/-- MessageFactory::Release( Message * message ): assert( message ); if
( !message ) return; message->Release(); if refcount is now 0, delete
the message. With assertsOn, a null handle or a release at refcount 0
is a fatal assertion (none). -/
def MessageFactory.ReleaseHandle (assertsOn : Bool) (msg : Option Message) :
    Option ReleaseOutcome :=
  match msg with
  | none => if assertsOn then none else some ReleaseOutcome.noopNull
  | some m =>
    if assertsOn ∧ ¬ 0 < m.m_refCount then none
    else
      let m1 := m.ReleaseRaw
      if m1.m_refCount = 0 then some (ReleaseOutcome.destroyed m1)
      else some (ReleaseOutcome.alive m1)

/-- A reference-counting operation on a single message. -/
inductive RefOp where
  | addRef
  | release
deriving DecidableEq, Repr

/-- Apply one RefOp via the Message-core operations (AddRef never
fails; Release asserts refcount positive). -/
def applyRefOp (m : Message) : RefOp → Option Message
  | RefOp.addRef => some m.AddRef
  | RefOp.release => m.Release

/-- Apply a sequence of RefOps left to right; none as soon as an
assertion fires. -/
def applyRefOps (m : Message) : List RefOp → Option Message
  | [] => some m
  | op :: rest =>
    match applyRefOp m op with
    | some m1 => applyRefOps m1 rest
    | none => none

/-- Number of addRef operations in a sequence, as an integer. -/
def numAddRefs : List RefOp → Int
  | [] => 0
  | RefOp.addRef :: rest => numAddRefs rest + 1
  | RefOp.release :: rest => numAddRefs rest

/-- Number of release operations in a sequence, as an integer. -/
def numReleases : List RefOp → Int
  | [] => 0
  | RefOp.addRef :: rest => numReleases rest
  | RefOp.release :: rest => numReleases rest + 1

/-- A state-changing operation on a BlockMessage: attach, detach, or
the guarded free step of the destructor. -/
inductive BlockOp where
  | attach (allocator blockData : Nat) (blockSize : Int)
  | detach
  | destructStep
deriving DecidableEq, Repr

/-- Apply one BlockOp, discarding free events (none when an attach
assertion fires). -/
def applyBlockOp (b : BlockMessage) : BlockOp → Option BlockMessage
  | BlockOp.attach a d s => (b.AttachBlock a d s).map Prod.fst
  | BlockOp.detach => some b.DetachBlock.1
  | BlockOp.destructStep => some b.destruct.1

/-- Apply a sequence of BlockOps left to right. -/
def applyBlockOps (b : BlockMessage) : List BlockOp → Option BlockMessage
  | [] => some b
  | op :: rest =>
    match applyBlockOp b op with
    | some b1 => applyBlockOps b1 rest
    | none => none

/-- Run a sequence of Create calls on a factory (dispatch ci), keeping
only the factory state; none if a type-range assertion fires. -/
def MessageFactory.runCreateSeq (f : MessageFactory)
    (ci : Int → CreateInternalResult) : List Int → Option MessageFactory
  | [] => some f
  | t :: ts =>
    match f.CreateWith ci t with
    | some (f1, _) => f1.runCreateSeq ci ts
    | none => none

/-- Helper: a successful run of applyRefOps changes the reference count
by the number of addRefs minus the number of releases, and preserves
the other fields. -/
theorem applyRefOps_refCount (ops : List RefOp) :
    ∀ m m1 : Message, applyRefOps m ops = some m1 →
      m1.m_refCount = m.m_refCount + numAddRefs ops - numReleases ops
      ∧ m1.m_id = m.m_id ∧ m1.m_type = m.m_type
      ∧ m1.m_blockMessage = m.m_blockMessage := by
  induction ops with
  | nil =>
    intro m m1 h
    simp only [applyRefOps, Option.some.injEq] at h
    subst h
    simp [numAddRefs, numReleases]
  | cons op rest ih =>
    intro m m1 h
    cases op with
    | addRef =>
      simp only [applyRefOps, applyRefOp] at h
      have h2 := ih _ _ h
      simp only [Message.AddRef] at h2
      simp only [numAddRefs, numReleases]
      omega
    | release =>
      simp only [applyRefOps, applyRefOp, Message.Release] at h
      by_cases hrc : 0 < m.m_refCount
      · rw [if_pos hrc] at h
        have h2 := ih _ _ h
        simp only [Message.ReleaseRaw] at h2
        simp only [numAddRefs, numReleases]
        omega
      · rw [if_neg hrc] at h
        exact absurd h (by simp)

/-- Claim C1 counterexample: with a macro-generated factory declaring
message type 32768 (and numTypes = 32769), Create(32768) returns a
non-null message whose GetType() is 0, not 32768 (the 15-bit type
bitfield truncates), and the error state stays NONE — so neither arm
of the claimed disjunction holds at this input. -/
theorem claim_C1_counterexample :
    (MessageFactory.init 1 32769).CreateWith
        (genCreateInternal [(32768, 0)] (fun _ => true)) 32768
      = some (MessageFactory.init 1 32769,
              some { m_refCount := 1, m_id := 0, m_type := 0, m_blockMessage := 0 })
    ∧ Message.GetType { m_refCount := 1, m_id := 0, m_type := 0, m_blockMessage := 0 } ≠ 32768
    ∧ MessageFactory.GetError (MessageFactory.init 1 32769) ≠
        MessageFactoryError.FAILED_TO_ALLOCATE_MESSAGE := by
  decide

/-- Claim C1 (amended): for every type in [0, numTypes), Create on a
macro-generated factory either returns a message whose reference count
is 1 and whose GetType() equals type reduced modulo 2^15 (the width of
the type bitfield; equal to type itself whenever type < 32768), or
returns null and sets the factory error state to FailedToAllocate. -/
theorem claim_C1 (decls : List (Int × Int)) (allocOk : Int → Bool)
    (f : MessageFactory) (type : Int)
    (h0 : 0 ≤ type) (h1 : type < f.m_numTypes) :
    (∃ m, f.CreateWith (genCreateInternal decls allocOk) type = some (f, some m)
        ∧ Message.GetRefCount m = 1 ∧ Message.GetType m = type % 32768)
    ∨ (∃ f1, f.CreateWith (genCreateInternal decls allocOk) type = some (f1, none)
        ∧ MessageFactory.GetError f1 = MessageFactoryError.FAILED_TO_ALLOCATE_MESSAGE) := by
  unfold MessageFactory.CreateWith genCreateInternal MessageFactory.CreateInternal
  rw [if_pos ⟨h0, h1⟩]
  cases hfind : decls.find? (fun d => decide (d.1 = type)) with
  | none =>
    right
    exact ⟨_, rfl, rfl⟩
  | some td =>
    have htd : td.1 = type := by
      have := List.find?_some hfind
      simpa using this
    cases hok : allocOk type with
    | false =>
      right
      exact ⟨_, rfl, rfl⟩
    | true =>
      left
      refine ⟨_, rfl, rfl, ?_⟩
      simp [Message.SetType, Message.init, Message.GetType, htd]

/-- Witness for claim C1 at a concrete factory with one declared type. -/
theorem claim_C1_witness :
    (∃ m, (MessageFactory.init 1 1).CreateWith
          (genCreateInternal [(0, 0)] (fun _ => true)) 0
        = some (MessageFactory.init 1 1, some m)
        ∧ Message.GetRefCount m = 1 ∧ Message.GetType m = 0 % 32768)
    ∨ (∃ f1, (MessageFactory.init 1 1).CreateWith
          (genCreateInternal [(0, 0)] (fun _ => true)) 0 = some (f1, none)
        ∧ MessageFactory.GetError f1 = MessageFactoryError.FAILED_TO_ALLOCATE_MESSAGE) :=
  claim_C1 [(0, 0)] (fun _ => true) (MessageFactory.init 1 1) 0 (by decide) (by decide)

/-- Claim C2: a message is destroyed exactly when a
MessageFactory::Release call takes its reference count from 1 to 0;
Message::Release itself only decrements (its result is the same state
with the count one lower, never a destruction); a factory Release at a
count above 1 leaves the message alive; a Release at count 0 is a
fatal assertion. -/
theorem claim_C2 (m : Message) :
    ((∃ mf, MessageFactory.ReleaseHandle true (some m)
        = some (ReleaseOutcome.destroyed mf)) ↔ Message.GetRefCount m = 1)
    ∧ (∀ m1, m.Release = some m1 →
        m1 = m.ReleaseRaw ∧ Message.GetRefCount m1 = Message.GetRefCount m - 1)
    ∧ (1 < Message.GetRefCount m →
        MessageFactory.ReleaseHandle true (some m)
          = some (ReleaseOutcome.alive m.ReleaseRaw))
    ∧ (Message.GetRefCount m = 0 →
        MessageFactory.ReleaseHandle true (some m) = none) := by
  obtain ⟨rc, mid, mty, mbm⟩ := m
  constructor
  · constructor
    · rintro ⟨mf, hmf⟩
      simp only [MessageFactory.ReleaseHandle, Message.ReleaseRaw,
        Message.GetRefCount] at hmf ⊢
      split_ifs at hmf with h1 h2
      · omega
      · simp at hmf
    · intro h1
      simp only [Message.GetRefCount] at h1
      subst h1
      refine ⟨{ m_refCount := 0, m_id := mid, m_type := mty, m_blockMessage := mbm }, ?_⟩
      simp [MessageFactory.ReleaseHandle, Message.ReleaseRaw]
  refine ⟨?_, ?_, ?_⟩
  · intro m1 h1
    simp only [Message.Release, Message.ReleaseRaw, Message.GetRefCount] at h1 ⊢
    split_ifs at h1
    simp only [Option.some.injEq] at h1
    subst h1
    exact ⟨rfl, rfl⟩
  · intro h1
    simp only [Message.GetRefCount] at h1
    simp only [MessageFactory.ReleaseHandle, Message.ReleaseRaw]
    split_ifs with hA hB
    · exact absurd hA.2 (by omega)
    · have hB2 : rc - 1 = 0 := hB
      omega
    · rfl
  · intro h1
    simp only [Message.GetRefCount] at h1
    subst h1
    rfl

/-- Witness for claim C2: a factory Release at refcount 2 leaves the
message alive at refcount 1, and a Release at refcount 0 is fatal. -/
theorem claim_C2_witness :
    MessageFactory.ReleaseHandle true
        (some { m_refCount := 2, m_id := 0, m_type := 0, m_blockMessage := 0 })
      = some (ReleaseOutcome.alive
          (Message.ReleaseRaw
            { m_refCount := 2, m_id := 0, m_type := 0, m_blockMessage := 0 }))
    ∧ MessageFactory.ReleaseHandle true
        (some { m_refCount := 0, m_id := 0, m_type := 0, m_blockMessage := 0 })
      = none :=
  ⟨(claim_C2 { m_refCount := 2, m_id := 0, m_type := 0, m_blockMessage := 0 }).2.2.1
      (by decide),
   (claim_C2 { m_refCount := 0, m_id := 0, m_type := 0, m_blockMessage := 0 }).2.2.2
      (by decide)⟩

/-- Claim C3: starting from a freshly constructed message (reference
count 1), after any successful sequence of AddRef and Release calls the
number of AddRefs minus the number of Releases equals GetRefCount - 1. -/
theorem claim_C3 (blockMessage : Int) (ops : List RefOp) (m1 : Message)
    (h : applyRefOps (Message.init blockMessage) ops = some m1) :
    numAddRefs ops - numReleases ops = Message.GetRefCount m1 - 1 := by
  have h2 := (applyRefOps_refCount ops _ _ h).1
  simp only [Message.init] at h2
  simp only [Message.GetRefCount]
  omega

/-- Witness for claim C3 on the sequence addRef, release, addRef. -/
theorem claim_C3_witness :
    numAddRefs [RefOp.addRef, RefOp.release, RefOp.addRef]
      - numReleases [RefOp.addRef, RefOp.release, RefOp.addRef]
    = Message.GetRefCount
        { m_refCount := 2, m_id := 0, m_type := 0, m_blockMessage := 0 } - 1 :=
  claim_C3 0 [RefOp.addRef, RefOp.release, RefOp.addRef]
    { m_refCount := 2, m_id := 0, m_type := 0, m_blockMessage := 0 } (by decide)

/-- Helper: one Create call either preserves the factory error level or
sets it to FAILED_TO_ALLOCATE_MESSAGE; in particular it never resets it
to NONE, and an error level of FAILED_TO_ALLOCATE_MESSAGE persists. -/
theorem createWith_error_step (f : MessageFactory)
    (ci : Int → CreateInternalResult) (t : Int) (f1 : MessageFactory)
    (r : Option Message) (hc : f.CreateWith ci t = some (f1, r)) :
    f1.m_error = f.m_error
    ∨ f1.m_error = MessageFactoryError.FAILED_TO_ALLOCATE_MESSAGE := by
  unfold MessageFactory.CreateWith at hc
  split_ifs at hc
  cases hm : (ci t).message with
  | none =>
    rw [hm] at hc
    simp only [Option.some.injEq, Prod.mk.injEq] at hc
    right
    rw [← hc.1]
  | some m =>
    rw [hm] at hc
    simp only [Option.some.injEq, Prod.mk.injEq] at hc
    left
    rw [← hc.1]

/-- Helper: a FAILED_TO_ALLOCATE_MESSAGE error level persists across any
successful run of Create calls. -/
theorem runCreateSeq_sticky (ci : Int → CreateInternalResult)
    (ts : List Int) :
    ∀ f f1 : MessageFactory,
      f.m_error = MessageFactoryError.FAILED_TO_ALLOCATE_MESSAGE →
      f.runCreateSeq ci ts = some f1 →
      f1.m_error = MessageFactoryError.FAILED_TO_ALLOCATE_MESSAGE := by
  induction ts with
  | nil =>
    intro f f1 herr h
    simp only [MessageFactory.runCreateSeq, Option.some.injEq] at h
    subst h
    exact herr
  | cons t ts ih =>
    intro f f1 herr h
    simp only [MessageFactory.runCreateSeq] at h
    cases hc : f.CreateWith ci t with
    | none => rw [hc] at h; exact absurd h (by simp)
    | some p =>
      rw [hc] at h
      have hstep := createWith_error_step f ci t p.1 p.2 (by rw [hc])
      rcases hstep with hsame | hfail
      · exact ih p.1 f1 (by rw [hsame, herr]) h
      · exact ih p.1 f1 hfail h

/-- Claim C4: the factory error state is sticky. Once it is
FAILED_TO_ALLOCATE_MESSAGE, it is still FAILED_TO_ALLOCATE_MESSAGE
after any successful run of Create calls; no single Create can reset it
to NONE; and ClearError resets it to NONE. -/
theorem claim_C4 (f : MessageFactory)
    (herr : MessageFactory.GetError f
      = MessageFactoryError.FAILED_TO_ALLOCATE_MESSAGE) :
    (∀ (ci : Int → CreateInternalResult) (ts : List Int)
        (f1 : MessageFactory), f.runCreateSeq ci ts = some f1 →
        MessageFactory.GetError f1
          = MessageFactoryError.FAILED_TO_ALLOCATE_MESSAGE)
    ∧ (∀ (ci : Int → CreateInternalResult) (t : Int) (f1 : MessageFactory)
        (r : Option Message), f.CreateWith ci t = some (f1, r) →
        MessageFactory.GetError f1 ≠ MessageFactoryError.NONE)
    ∧ MessageFactory.GetError f.ClearError = MessageFactoryError.NONE := by
  refine ⟨?_, ?_, rfl⟩
  · intro ci ts f1 h
    exact runCreateSeq_sticky ci ts f f1 herr h
  · intro ci t f1 r h hnone
    have hnone2 : f1.m_error = MessageFactoryError.NONE := hnone
    have herr2 : f.m_error = MessageFactoryError.FAILED_TO_ALLOCATE_MESSAGE := herr
    rcases createWith_error_step f ci t f1 r h with hsame | hfail
    · rw [hnone2, herr2] at hsame
      exact absurd hsame (by simp)
    · rw [hnone2] at hfail
      exact absurd hfail (by simp)

/-- Witness for claim C4 at a concrete failed factory: two subsequent
successful Create calls keep the error, and ClearError resets it. -/
theorem claim_C4_witness :
    MessageFactory.GetError
        { m_allocator := 1, m_numTypes := 1,
          m_error := MessageFactoryError.FAILED_TO_ALLOCATE_MESSAGE }
      = MessageFactoryError.FAILED_TO_ALLOCATE_MESSAGE
    ∧ MessageFactory.GetError
        (MessageFactory.ClearError
          { m_allocator := 1, m_numTypes := 1,
            m_error := MessageFactoryError.FAILED_TO_ALLOCATE_MESSAGE })
      = MessageFactoryError.NONE := by
  have hc := claim_C4
    { m_allocator := 1, m_numTypes := 1,
      m_error := MessageFactoryError.FAILED_TO_ALLOCATE_MESSAGE } (by decide)
  exact ⟨hc.1 (genCreateInternal [(0, 0)] (fun _ => true)) [0, 0] _ (by decide),
         hc.2.2⟩

/-- Claim C5: on a BlockMessage with no block attached, AttachBlock
with non-null data and positive size succeeds, and an immediate
DetachBlock leaves the message unattached (GetBlockData = null,
GetBlockSize = 0, GetAllocator = null); neither call performs a free. -/
theorem claim_C5 (b : BlockMessage) (allocator blockData : Nat)
    (blockSize : Int) (hd : blockData ≠ 0) (hs : 0 < blockSize)
    (hb : BlockMessage.GetBlockData b = 0) :
    b.AttachBlock allocator blockData blockSize ≠ none
    ∧ ∀ b1 frees,
        b.AttachBlock allocator blockData blockSize = some (b1, frees) →
        frees = []
        ∧ BlockMessage.GetBlockData b1.DetachBlock.1 = 0
        ∧ BlockMessage.GetBlockSize b1.DetachBlock.1 = 0
        ∧ BlockMessage.GetAllocator b1.DetachBlock.1 = 0
        ∧ b1.DetachBlock.2 = [] := by
  have hb2 : b.m_blockData = 0 := hb
  constructor
  · unfold BlockMessage.AttachBlock
    rw [if_pos ⟨hd, hs, hb2⟩]
    simp
  · intro b1 frees h1
    unfold BlockMessage.AttachBlock at h1
    rw [if_pos ⟨hd, hs, hb2⟩] at h1
    simp only [Option.some.injEq, Prod.mk.injEq] at h1
    obtain ⟨hb1, hfrees⟩ := h1
    subst hb1
    exact ⟨hfrees.symm, rfl, rfl, rfl, rfl⟩

/-- Witness for claim C5: attach (allocator 1, data 2, size 3) to a
fresh BlockMessage, then detach. -/
theorem claim_C5_witness :
    ([] : List FreeEvent) = []
    ∧ BlockMessage.GetBlockData
        (BlockMessage.DetachBlock
          { msg := Message.init 1, m_allocator := 1, m_blockData := 2,
            m_blockSize := 3 }).1 = 0
    ∧ BlockMessage.GetBlockSize
        (BlockMessage.DetachBlock
          { msg := Message.init 1, m_allocator := 1, m_blockData := 2,
            m_blockSize := 3 }).1 = 0
    ∧ BlockMessage.GetAllocator
        (BlockMessage.DetachBlock
          { msg := Message.init 1, m_allocator := 1, m_blockData := 2,
            m_blockSize := 3 }).1 = 0
    ∧ (BlockMessage.DetachBlock
        { msg := Message.init 1, m_allocator := 1, m_blockData := 2,
          m_blockSize := 3 }).2 = [] :=
  (claim_C5 BlockMessage.init 1 2 3 (by decide) (by decide) (by decide)).2
    { msg := Message.init 1, m_allocator := 1, m_blockData := 2,
      m_blockSize := 3 } [] (by decide)

/-- Claim C6: if a block is attached (recorded allocator and data
pointer non-null), the destructor step frees exactly that block
through the recorded allocator and resets the (allocator, data, size)
triple to the unattached state; if no block is attached it is a no-op;
and running the guarded free step again after one run frees nothing,
so the block is freed at most once. -/
theorem claim_C6 (b : BlockMessage) :
    (BlockMessage.GetAllocator b ≠ 0 → BlockMessage.GetBlockData b ≠ 0 →
        b.destruct = ({ b with m_blockData := 0, m_blockSize := 0, m_allocator := 0 },
                      [(b.m_allocator, b.m_blockData)]))
    ∧ (BlockMessage.GetAllocator b = 0 → b.destruct = (b, []))
    ∧ (BlockMessage.destruct b.destruct.1).2 = [] := by
  have hga : BlockMessage.GetAllocator b = b.m_allocator := rfl
  have hgd : BlockMessage.GetBlockData b = b.m_blockData := rfl
  refine ⟨?_, ?_, ?_⟩
  · intro ha hd
    rw [hga] at ha
    rw [hgd] at hd
    unfold BlockMessage.destruct
    rw [if_pos ha, if_pos hd]
  · intro ha
    rw [hga] at ha
    unfold BlockMessage.destruct
    rw [if_neg (by simpa using ha)]
  · by_cases h : b.m_allocator ≠ 0
    · have h1 : b.destruct.1 = { b with m_blockData := 0, m_blockSize := 0, m_allocator := 0 } := by
        unfold BlockMessage.destruct
        rw [if_pos h]
      rw [h1]
      unfold BlockMessage.destruct
      rw [if_neg (by simp)]
    · have h1 : b.destruct.1 = b := by
        unfold BlockMessage.destruct
        rw [if_neg h]
      rw [h1]
      unfold BlockMessage.destruct
      rw [if_neg h]

/-- Witness for claim C6 at a concrete attached BlockMessage: the
block (7, 5) is freed and the triple is reset to the unattached
state. -/
theorem claim_C6_witness :
    BlockMessage.destruct
        { msg := Message.init 1, m_allocator := 7, m_blockData := 5,
          m_blockSize := 3 }
      = ({ msg := Message.init 1, m_allocator := 0, m_blockData := 0,
           m_blockSize := 0 }, [(7, 5)]) :=
  (claim_C6
    { msg := Message.init 1, m_allocator := 7, m_blockData := 5,
      m_blockSize := 3 }).1 (by decide) (by decide)

/-- Claim C7 counterexample: with assertions enabled (the same build
semantics under which Release at refcount 0 is a fatal contract
violation), MessageFactory::AddRef and MessageFactory::Release on a
null handle hit assert( message ) — a fatal failure, contradicting the
claim that a null handle never causes a fatal failure. -/
theorem claim_C7_counterexample :
    MessageFactory.AddRefHandle true none = none
    ∧ MessageFactory.ReleaseHandle true none = none := by
  decide

/-- Claim C7 (amended): MessageFactory::AddRef and
MessageFactory::Release first assert the handle is non-null; when
assertions are compiled out, the explicit null check makes them return
without touching any factory or message state, and with assertions
enabled a null handle is a fatal assertion failure. -/
theorem claim_C7 :
    MessageFactory.AddRefHandle false none = some none
    ∧ MessageFactory.ReleaseHandle false none = some ReleaseOutcome.noopNull
    ∧ MessageFactory.AddRefHandle true none = none
    ∧ MessageFactory.ReleaseHandle true none = none := by
  decide

/-- Helper: one BlockMessage operation preserves the invariant that the
block flag is set and that a null data pointer implies size 0 and no
recorded allocator. -/
theorem applyBlockOp_inv (b b2 : BlockMessage) (op : BlockOp)
    (h1 : Message.IsBlockMessage b.msg = true)
    (h2 : b.m_blockData = 0 → b.m_blockSize = 0 ∧ b.m_allocator = 0)
    (h : applyBlockOp b op = some b2) :
    Message.IsBlockMessage b2.msg = true
    ∧ (b2.m_blockData = 0 → b2.m_blockSize = 0 ∧ b2.m_allocator = 0) := by
  cases op with
  | attach a d s =>
    simp only [applyBlockOp, BlockMessage.AttachBlock] at h
    split_ifs at h with hcond
    · simp only [Option.map_some', Option.some.injEq] at h
      subst h
      refine ⟨h1, ?_⟩
      intro hd
      have hd2 : d = 0 := hd
      exact absurd hd2 hcond.1
    · simp at h
  | detach =>
    simp only [applyBlockOp, BlockMessage.DetachBlock, Option.some.injEq] at h
    subst h
    exact ⟨h1, fun _ => ⟨rfl, rfl⟩⟩
  | destructStep =>
    simp only [applyBlockOp] at h
    by_cases hcond : b.m_allocator ≠ 0
    · have hD : b.destruct.1 = { b with m_blockData := 0, m_blockSize := 0, m_allocator := 0 } := by
        unfold BlockMessage.destruct
        rw [if_pos hcond]
      rw [hD] at h
      simp only [Option.some.injEq] at h
      subst h
      exact ⟨h1, fun _ => ⟨rfl, rfl⟩⟩
    · have hD : b.destruct.1 = b := by
        unfold BlockMessage.destruct
        rw [if_neg hcond]
      rw [hD] at h
      simp only [Option.some.injEq] at h
      subst h
      exact ⟨h1, h2⟩

/-- Helper: the invariant of applyBlockOp_inv is preserved by any
successful sequence of BlockMessage operations. -/
theorem applyBlockOps_inv (ops : List BlockOp) :
    ∀ b b1 : BlockMessage,
      Message.IsBlockMessage b.msg = true →
      (b.m_blockData = 0 → b.m_blockSize = 0 ∧ b.m_allocator = 0) →
      applyBlockOps b ops = some b1 →
      Message.IsBlockMessage b1.msg = true
      ∧ (b1.m_blockData = 0 → b1.m_blockSize = 0 ∧ b1.m_allocator = 0) := by
  induction ops with
  | nil =>
    intro b b1 h1 h2 h
    simp only [applyBlockOps, Option.some.injEq] at h
    subst h
    exact ⟨h1, h2⟩
  | cons op rest ih =>
    intro b b1 h1 h2 h
    simp only [applyBlockOps] at h
    cases hstep : applyBlockOp b op with
    | none => rw [hstep] at h; exact absurd h (by simp)
    | some b2 =>
      rw [hstep] at h
      have hi := applyBlockOp_inv b b2 op h1 h2 hstep
      exact ih b2 b1 hi.1 hi.2 h

/-- Claim C8: any BlockMessage reachable from fresh construction by
attach, detach and destructor steps has its block flag set
(IsBlockMessage = true), and whenever no block is attached
(GetBlockData = null, which holds in particular for a fresh one), also
GetBlockSize = 0 and GetAllocator = null. -/
theorem claim_C8 (ops : List BlockOp) (b : BlockMessage)
    (h : applyBlockOps BlockMessage.init ops = some b) :
    Message.IsBlockMessage b.msg = true
    ∧ (BlockMessage.GetBlockData b = 0 →
        BlockMessage.GetBlockSize b = 0 ∧ BlockMessage.GetAllocator b = 0) := by
  have hinv := applyBlockOps_inv ops BlockMessage.init b (by decide)
    (by decide) h
  exact ⟨hinv.1, fun hd => hinv.2 hd⟩

/-- Witness for claim C8: the state after attaching and detaching a
block on a fresh BlockMessage. -/
theorem claim_C8_witness :
    Message.IsBlockMessage
        ({ msg := Message.init 1, m_allocator := 0, m_blockData := 0,
           m_blockSize := 0 } : BlockMessage).msg = true
    ∧ (BlockMessage.GetBlockSize
        ({ msg := Message.init 1, m_allocator := 0, m_blockData := 0,
           m_blockSize := 0 } : BlockMessage) = 0
      ∧ BlockMessage.GetAllocator
        ({ msg := Message.init 1, m_allocator := 0, m_blockData := 0,
           m_blockSize := 0 } : BlockMessage) = 0) := by
  have hc := claim_C8 [BlockOp.attach 1 2 3, BlockOp.detach]
    { msg := Message.init 1, m_allocator := 0, m_blockData := 0,
      m_blockSize := 0 } (by decide)
  exact ⟨hc.1, hc.2 (by decide)⟩

/-- Claim C9: the base BlockMessage serialize routine contributes
nothing: for any stream type, and in particular for each of the three
generated SerializeInternal overrides (read, write, measure), it
returns true and leaves the stream unchanged. -/
theorem claim_C9 (b : BlockMessage) :
    (∀ (Stream : Type) (stream : Stream), b.Serialize stream = (true, stream))
    ∧ (∀ stream : ReadStream,
        b.SerializeInternalRead stream = (true, stream))
    ∧ (∀ stream : WriteStream,
        b.SerializeInternalWrite stream = (true, stream))
    ∧ (∀ stream : MeasureStream,
        b.SerializeInternalMeasure stream = (true, stream)) :=
  ⟨fun _ _ => rfl, fun _ => rfl, fun _ => rfl, fun _ => rfl⟩

/-- Claim C10: the base CreateInternal returns null for every type, so
for an underived factory, and for a macro-generated factory at an
in-range type with no declared message class (where no allocation is
attempted), Create returns null and sets the error state to
FAILED_TO_ALLOCATE_MESSAGE. -/
theorem claim_C10 (f : MessageFactory) (type : Int)
    (decls : List (Int × Int)) (allocOk : Int → Bool)
    (h0 : 0 ≤ type) (h1 : type < f.m_numTypes)
    (hnd : decls.find? (fun d => decide (d.1 = type)) = none) :
    (∀ t, (MessageFactory.CreateInternal t).message = none)
    ∧ (genCreateInternal decls allocOk type).message = none
    ∧ (genCreateInternal decls allocOk type).allocAttempted = false
    ∧ f.CreateWith (fun t => MessageFactory.CreateInternal t) type
        = some ({ f with
            m_error := MessageFactoryError.FAILED_TO_ALLOCATE_MESSAGE }, none)
    ∧ f.CreateWith (genCreateInternal decls allocOk) type
        = some ({ f with
            m_error := MessageFactoryError.FAILED_TO_ALLOCATE_MESSAGE }, none) := by
  have hgen : genCreateInternal decls allocOk type
      = { message := none, allocAttempted := false } := by
    unfold genCreateInternal MessageFactory.CreateInternal
    rw [hnd]
  refine ⟨fun t => rfl, by rw [hgen], by rw [hgen], ?_, ?_⟩
  · unfold MessageFactory.CreateWith MessageFactory.CreateInternal
    rw [if_pos ⟨h0, h1⟩]
  · unfold MessageFactory.CreateWith
    rw [if_pos ⟨h0, h1⟩, hgen]

/-- Witness for claim C10: a macro-generated factory with numTypes 2
but only type 0 declared, asked for type 1. -/
theorem claim_C10_witness :
    (MessageFactory.init 1 2).CreateWith
        (genCreateInternal [(0, 0)] (fun _ => true)) 1
      = some ({ m_allocator := 1, m_numTypes := 2,
                m_error := MessageFactoryError.FAILED_TO_ALLOCATE_MESSAGE },
              none) :=
  (claim_C10 (MessageFactory.init 1 2) 1 [(0, 0)] (fun _ => true)
    (by decide) (by decide) (by decide)).2.2.2.2
